import Mathlib

/-!
Verification development for the BriLeX dental furnace controller
(`server.js`).  The definitions below are a shallow embedding of the
control-plane code: JavaScript numbers are modelled as `ℚ` (all arithmetic
in the relevant paths is exact decimal/quarter arithmetic), clock values
as `ℤ` milliseconds, and the mutable `systemState` object as an explicit
`SystemState` record threaded through each function.  GPIO writes to the
SSR (heater) pin are recorded as an explicit list of written levels.
-/

/-- JavaScript `Math.round`: round half toward positive infinity,
i.e. `Math.round x = ⌊x + 0.5⌋`. -/
def jsRound (x : ℚ) : ℤ := ⌊x + 1/2⌋

/-- `Math.round(x * 10) / 10` — rounding to 0.1 resolution, as used for
PID output (line 177) and the decoded temperature (line 334). -/
def roundTenth (x : ℚ) : ℚ := (jsRound (x * 10) : ℚ) / 10

/-- One step of a firing program (`{ temp, time, vacuum, hold, ramp }`,
lines 78–115; times in minutes). -/
structure Step where
  temp : ℚ
  time : ℕ
  vacuum : ℚ
  hold : ℕ
  ramp : ℕ
  deriving DecidableEq

/-- A program: `{ name, steps }` (lines 78–115, and user programs saved by
`POST /api/programs/save`). -/
structure Program where
  name : String
  steps : List Step
  deriving DecidableEq

/-- The built-in program database `programs` (lines 77–115). -/
def builtinPrograms : List (ℕ × Program) :=
  [ (1, ⟨"IPS e.max CAD", [⟨850, 25, -95, 5, 15⟩]⟩),
    (2, ⟨"Zirkonyum", [⟨600, 30, 0, 10, 20⟩, ⟨1530, 120, 0, 15, 45⟩]⟩),
    (3, ⟨"Glaze", [⟨770, 15, -60, 3, 10⟩]⟩),
    (4, ⟨"Kristalizasyon", [⟨850, 30, -90, 5, 15⟩]⟩),
    (5, ⟨"Metal Seramik", [⟨960, 35, -85, 8, 18⟩]⟩),
    (6, ⟨"Feldspat Seramik", [⟨900, 20, -75, 5, 12⟩]⟩) ]

/-- The global `systemState` object (lines 51–74).  `temperatures.current`
is `tempCurrent`, `temperatures.target` is `tempTarget`. -/
structure SystemState where
  isRunning : Bool
  isPaused : Bool
  startTime : Option ℤ
  elapsedTime : ℤ
  currentProgram : ℕ
  currentStep : ℕ
  totalSteps : ℕ
  tempCurrent : ℚ
  tempTarget : ℚ
  tc1 : ℚ
  tc2 : ℚ
  chamber : ℚ
  heaterPower : ℚ
  vacuum : ℚ
  vacuumTarget : ℚ
  fan : Bool
  doorOpen : Bool
  emergency : Bool
  errors : List String
  lastUpdate : ℤ
  deriving DecidableEq

/-- The initial value of `systemState` (lines 51–74); `lastUpdate` is
`Date.now()` at process start, modelled as 0. -/
def initialSystemState : SystemState :=
  { isRunning := false, isPaused := false, startTime := none, elapsedTime := 0,
    currentProgram := 1, currentStep := 0, totalSteps := 1,
    tempCurrent := 25, tempTarget := 0, tc1 := 25, tc2 := 25, chamber := 25,
    heaterPower := 0, vacuum := 0, vacuumTarget := 0, fan := false,
    doorOpen := false, emergency := false, errors := [], lastUpdate := 0 }

/-- `systemState.errors.push(msg)` — appends one entry; the source never
truncates this list anywhere. -/
def pushError (st : SystemState) (msg : String) : SystemState :=
  { st with errors := st.errors ++ [msg] }

/-- `POST /api/errors/clear` (lines 940–943): `systemState.errors = []`. -/
def clearErrorsCommand (st : SystemState) : SystemState :=
  { st with errors := [] }

/-- The `AdvancedPIDController` instance fields (lines 122–138).
`outputLimits = {0,100}` and `integralLimits = {-50,50}` are constant and
inlined at their use sites. -/
structure PIDState where
  kp : ℚ
  ki : ℚ
  kd : ℚ
  lastError : ℚ
  integral : ℚ
  lastTime : ℤ
  errorHistory : List (ℚ × ℤ)
  autoTune : Bool
  deriving DecidableEq

/-- The constructor values (lines 125–137); `lastTime` is `Date.now()` at
construction, modelled as 0. -/
def initialPIDState : PIDState :=
  { kp := 3.2, ki := 0.08, kd := 1.5, lastError := 0, integral := 0,
    lastTime := 0, errorHistory := [], autoTune := true }

/-- `adaptivetune` (lines 180–191): mutates only `kp`. -/
def adaptivetune (kp error derivative : ℚ) : ℚ :=
  if 50 < |error| then min (kp * 1.01) 5
  else if |error| < 5 ∧ |derivative| < 1 then max (kp * 0.99) 2
  else kp

/-- `AdvancedPIDController.calculate(setpoint, current)` (lines 140–178).
`now` is the `Date.now()` observed by the call.  Returns the rounded
output and the updated controller state. -/
def PIDState.calculate (s : PIDState) (setpoint current : ℚ) (now : ℤ) :
    ℚ × PIDState :=
  let dt : ℚ := max (((now - s.lastTime : ℤ) : ℚ) / 1000) (1/1000)
  let error := setpoint - current
  let integral := max (-50) (min 50 (s.integral + error * dt))
  let derivative := (error - s.lastError) / dt
  let output := max 0 (min 100 (s.kp * error + s.ki * integral + s.kd * derivative))
  let kp1 := if s.autoTune then adaptivetune s.kp error derivative else s.kp
  let hist0 := s.errorHistory ++ [(error, now)]
  let hist := if 100 < hist0.length then hist0.tail else hist0
  (roundTenth output,
   { s with kp := kp1, lastError := error, integral := integral,
            lastTime := now, errorHistory := hist })

/-- `AdvancedPIDController.reset()` (lines 193–199). -/
def pidReset (s : PIDState) (now : ℤ) : PIDState :=
  { s with lastError := 0, integral := 0, lastTime := now, errorHistory := [] }

/-- Outcome of one thermocouple frame decode.  The source returns `null`
for every fault branch, distinguishing them only in log output; the
constructors record which branch fired. -/
inductive Sample where
  | temperature (t : ℚ)
  | openCircuit
  | busError
  | outOfRange
  deriving DecidableEq

/-- The frame-decoding part of `readMAX6675Advanced` (lines 312–334):
all-ones / all-zeros bus check first, then the bit-2 open-thermocouple
flag, then `((raw >> 3) & 0xFFF) * 0.25` with the `[-50, 1400]` range
check, and finally rounding to 0.1 °C. -/
def decodeFrame (raw : ℕ) : Sample :=
  if raw = 0xFFFF ∨ raw = 0x0000 then .busError
  else if raw &&& 0x4 ≠ 0 then .openCircuit
  else if (((raw >>> 3) &&& 0xFFF : ℕ) : ℚ) * (1/4) < -50 ∨
      1400 < (((raw >>> 3) &&& 0xFFF : ℕ) : ℚ) * (1/4) then .outOfRange
  else .temperature (roundTenth ((((raw >>> 3) &&& 0xFFF : ℕ) : ℚ) * (1/4)))

/-- The hardware branch of `readMAX6675Advanced` after the 16 bits have
been clocked in (lines 312–341): returns the sample (or `null`) and the
state, with the open-circuit branch pushing an error entry (line 321). -/
def readMAX6675Advanced (raw : ℕ) (tcName : String) (st : SystemState) :
    Option ℚ × SystemState :=
  match decodeFrame raw with
  | .busError => (none, st)
  | .openCircuit => (none, pushError st (tcName ++ " termokupl hatası"))
  | .outOfRange => (none, st)
  | .temperature t => (some t, st)

/-- `setHeaterPowerAdvanced(power)` (lines 344–380).  `gpioConnected`
models `PIGPIO_AVAILABLE && gpio && gpio.connected`.  Returns the new
state and the level written to the SSR pin, if any (`none` in simulation
mode, where the function returns before touching the pin).  Note the
interlock gate (line 354) is only reached in hardware mode. -/
def setHeaterPowerAdvanced (st : SystemState) (gpioConnected : Bool) (power : ℚ) :
    SystemState × Option Bool :=
  let clampedPower := max 0 (min 100 power)
  let st1 := { st with heaterPower := clampedPower }
  if gpioConnected = false then (st1, none)
  else if st1.emergency = true ∨ st1.doorOpen = true then
    ({ st1 with heaterPower := 0 }, some false)
  else if 5 < clampedPower then (st1, some true)
  else (st1, some false)

/-- `setVacuumControl(enable, targetPressure)` (lines 383–408).  The
vacuum pin is distinct from the SSR pin, so its writes are not tracked. -/
def setVacuumControl (st : SystemState) (gpioConnected : Bool) (enable : Bool)
    (targetPressure : ℚ) : SystemState :=
  if gpioConnected = false then
    { st with
      vacuum := if enable then targetPressure else 0,
      vacuumTarget := if enable then targetPressure else 0 }
  else if enable = true ∧ st.emergency = false ∧ st.doorOpen = false then
    { st with
      vacuumTarget := targetPressure,
      vacuum := max (st.vacuum - 5) targetPressure }
  else
    { st with vacuumTarget := 0, vacuum := min (st.vacuum + 10) 0 }

/-- `setFanControl(enable)` (lines 411–425): both the simulation and the
hardware branch set `systemState.fan = enable`. -/
def setFanControl (st : SystemState) (enable : Bool) : SystemState :=
  { st with fan := enable }

/-- `emergencyStop()` (lines 582–594). -/
def emergencyStop (st : SystemState) (pid : PIDState) (gpioConnected : Bool)
    (now : ℤ) : SystemState × PIDState × List Bool :=
  let st1 := { st with isRunning := false, isPaused := false, tempTarget := 0 }
  let r := setHeaterPowerAdvanced st1 gpioConnected 0
  let st2 := setVacuumControl r.1 gpioConnected false (-80)
  let st3 := setFanControl st2 true
  (st3, pidReset pid now, r.2.toList)

/-- `pauseProgram()` (lines 597–603). -/
def pauseProgram (st : SystemState) (gpioConnected : Bool) :
    SystemState × List Bool :=
  let st1 := { st with isPaused := true }
  let r := setHeaterPowerAdvanced st1 gpioConnected 0
  let st2 := setVacuumControl r.1 gpioConnected false (-80)
  (st2, r.2.toList)

/-- `stopProgram()` (lines 606–628).  The `setTimeout` that turns the fan
off five minutes later runs outside the control loop and is not part of
the tick. -/
def stopProgram (st : SystemState) (pid : PIDState) (gpioConnected : Bool)
    (now : ℤ) : SystemState × PIDState × List Bool :=
  let st1 := { st with
    isRunning := false, isPaused := false, startTime := none,
    elapsedTime := 0, currentStep := 0, tempTarget := 0 }
  let r := setHeaterPowerAdvanced st1 gpioConnected 0
  let st2 := setVacuumControl r.1 gpioConnected false (-80)
  let st3 := setFanControl st2 true
  (st3, pidReset pid now, r.2.toList)

/-- The program resolution in `executeProgram` (line 533):
`{ ...programs[id], ...userPrograms[id] }` — a field-wise object spread in
which the user entry wins; since both maps hold full `{name, steps}`
records, the merge resolves to the user program when present, else the
built-in, else an empty object (rejected by the `!currentProgram.steps`
guard, modelled as `none`). -/
def resolveProgram (builtin user : List (ℕ × Program)) (id : ℕ) : Option Program :=
  match user.lookup id with
  | some p => some p
  | none => builtin.lookup id

/-- `executeProgram()` (lines 532–579).  Returns `none` when the step list
is empty: `steps[i] || steps[0]` is then `undefined` and reading `.temp`
throws, which `mainControlLoop`'s catch block absorbs.  Note the timer
guard `if (systemState.startTime)` treats a stored time of 0 as falsy. -/
def executeProgram (builtin user : List (ℕ × Program)) (now : ℤ)
    (st : SystemState) (pid : PIDState) (gpioConnected : Bool) :
    Option (SystemState × PIDState × List Bool) :=
  match resolveProgram builtin user st.currentProgram with
  | none => some (st, pid, [])
  | some prog =>
    let step? := match prog.steps.get? st.currentStep with
      | some s => some s
      | none => prog.steps.get? 0
    match step? with
    | none => none
    | some step =>
      let st1 := { st with tempTarget := step.temp }
      let pr := pid.calculate step.temp st1.tempCurrent now
      let hr := setHeaterPowerAdvanced st1 gpioConnected pr.1
      let st3 := if step.vacuum < 0 then setVacuumControl hr.1 gpioConnected true step.vacuum
                 else setVacuumControl hr.1 gpioConnected false (-80)
      match st3.startTime with
      | none => some (st3, pr.2, hr.2.toList)
      | some t0 =>
        if t0 = 0 then some (st3, pr.2, hr.2.toList)
        else
          let elapsed : ℤ := Int.fdiv (now - t0) 1000
          let st4 := { st3 with elapsedTime := elapsed }
          let stepTotalTime : ℕ := step.ramp + step.time + step.hold
          if (stepTotalTime : ℤ) * 60 ≤ elapsed then
            if st4.currentStep < prog.steps.length - 1 then
              some ({ st4 with currentStep := st4.currentStep + 1 }, pr.2, hr.2.toList)
            else
              let sr := stopProgram st4 pr.2 gpioConnected now
              some (sr.1, sr.2.1, hr.2.toList ++ sr.2.2)
          else some (st4, pr.2, hr.2.toList)

/-- Inputs to one `mainControlLoop` tick: the GPIO availability flag, the
raw door / emergency pin levels (only read in hardware mode; both are
active-low), the two thermocouple read results, and `Date.now()`. -/
structure TickInput where
  gpioConnected : Bool
  doorLevel : Bool
  emergencyLevel : Bool
  tc1Reading : Option ℚ
  tc2Reading : Option ℚ
  now : ℤ
  deriving DecidableEq

/-- `readSensors()` (lines 428–445): in hardware mode, level 0 on the door
pin means open and level 0 on the emergency pin means pressed; in
simulation mode the function returns without touching the state. -/
def readSensors (inp : TickInput) (st : SystemState) : SystemState :=
  if inp.gpioConnected then
    { st with doorOpen := inp.doorLevel = false,
              emergency := inp.emergencyLevel = false }
  else st

/-- The temperature update and fusion block of `mainControlLoop`
(lines 486–496): per-channel fields are refreshed from valid reads, and
`temperatures.current` becomes the mean when both reads are valid, the
single valid read when one is, and is left unchanged when neither is. -/
def fuseTemperatures (tc1R tc2R : Option ℚ) (st : SystemState) : SystemState :=
  let st1 := match tc1R with
    | some t => { st with tc1 := t }
    | none => st
  let st2 := match tc2R with
    | some t => { st1 with tc2 := t }
    | none => st1
  match tc1R, tc2R with
  | some a, some b => { st2 with tempCurrent := (a + b) / 2 }
  | some a, none => { st2 with tempCurrent := a }
  | none, some b => { st2 with tempCurrent := b }
  | none, none => st2

/-- `mainControlLoop()` (lines 476–529), one tick: read sensors, read and
fuse thermocouples, run the emergency and door safety checks, then either
execute the program or shut the outputs down.  Returns the new system
state, the new PID state, and every level written to the SSR pin during
the tick.  When `executeProgram` throws (empty step list) the catch block
pushes an error and the tick ends without updating `lastUpdate`. -/
def tick (builtin user : List (ℕ × Program)) (inp : TickInput)
    (st : SystemState) (pid : PIDState) : SystemState × PIDState × List Bool :=
  let s0 := readSensors inp st
  let s1 := fuseTemperatures inp.tc1Reading inp.tc2Reading s0
  let er := if s1.emergency = true ∧ s1.isRunning = true
            then emergencyStop s1 pid inp.gpioConnected inp.now
            else (s1, pid, [])
  let dr := if er.1.doorOpen = true ∧ er.1.isRunning = true
            then pauseProgram er.1 inp.gpioConnected
            else (er.1, [])
  if dr.1.isRunning = true ∧ dr.1.isPaused = false then
    match executeProgram builtin user inp.now dr.1 er.2.1 inp.gpioConnected with
    | some x => ({ x.1 with lastUpdate := inp.now }, x.2.1,
                 er.2.2 ++ dr.2 ++ x.2.2)
    | none => (pushError dr.1 "Kontrol döngüsü hatası", er.2.1, er.2.2 ++ dr.2)
  else
    let hr := setHeaterPowerAdvanced dr.1 inp.gpioConnected 0
    let s5 := setVacuumControl hr.1 inp.gpioConnected false (-80)
    ({ s5 with lastUpdate := inp.now }, er.2.1, er.2.2 ++ dr.2 ++ hr.2.toList)

/-- Outcome of `POST /api/start` (lines 677–731). -/
inductive StartOutcome where
  | ok (program : String) (steps : ℕ) (target : ℚ)
  | badRequest (error : String)
  | serverError
  deriving DecidableEq

/-- The program selection of the start endpoint (line 698):
`programs[id] || userPrograms[id]` — built-in first, then user. -/
def startResolve (builtin user : List (ℕ × Program)) (id : ℕ) : Option Program :=
  match builtin.lookup id with
  | some p => some p
  | none => user.lookup id

/-- `POST /api/start` (lines 677–731).  `programId` is the request body
field (`none` when absent); a `programId` of 0 is falsy in JavaScript and
skips the selection step.  When the selected program has an empty step
list, `steps[0]` is `undefined` and reading `.temp` throws after the run
flags were already mutated; the catch block then answers 500
(`serverError`). -/
def startCommand (builtin user : List (ℕ × Program)) (now : ℤ)
    (st : SystemState) (pid : PIDState) (programId : Option ℕ) :
    StartOutcome × SystemState × PIDState :=
  if st.isRunning = true then (.badRequest "Program zaten çalışıyor", st, pid)
  else if st.emergency = true then (.badRequest "Acil durdurma aktif", st, pid)
  else if st.doorOpen = true then (.badRequest "Kapı açık", st, pid)
  else
    let st1 := match programId with
      | some p =>
        if p ≠ 0 ∧ ((builtin.lookup p).isSome ∨ (user.lookup p).isSome) then
          { st with currentProgram := p }
        else st
      | none => st
    match startResolve builtin user st1.currentProgram with
    | none => (.badRequest "Geçersiz program", st1, pid)
    | some selectedProgram =>
      let st2 := { st1 with
        isRunning := true, isPaused := false, startTime := some now,
        elapsedTime := 0, currentStep := 0,
        totalSteps := selectedProgram.steps.length, errors := [] }
      match selectedProgram.steps with
      | [] => (.serverError, st2, pid)
      | firstStep :: _ =>
        (.ok selectedProgram.name selectedProgram.steps.length firstStep.temp,
         { st2 with tempTarget := firstStep.temp }, pidReset pid now)

/-- Outcome of `POST /api/programs/save` (lines 872–897). -/
inductive SaveOutcome where
  | ok (id : ℕ) (program : Program)
  | badRequest (error : String)
  deriving DecidableEq

/-- `Math.max(...Object.keys({...programs, ...userPrograms}).map(Number), 0)`
(line 882): the largest program id, or 0 when there are none. -/
def maxProgramId (builtin user : List (ℕ × Program)) : ℕ :=
  ((builtin.map Prod.fst) ++ (user.map Prod.fst)).foldr max 0

/-- `POST /api/programs/save` (lines 872–897).  `name` is `none` when the
body field is absent and `some ""` when present but empty (both falsy);
`steps` is `none` when absent or not an array.  The endpoint performs no
validation of the steps themselves. -/
def saveProgramCommand (builtin user : List (ℕ × Program))
    (name : Option String) (steps : Option (List Step)) :
    SaveOutcome × List (ℕ × Program) :=
  match name, steps with
  | some n, some stepList =>
    if n = "" then (.badRequest "Geçersiz program verisi", user)
    else
      (.ok (maxProgramId builtin user + 1) ⟨n, stepList⟩,
       user ++ [(maxProgramId builtin user + 1, ⟨n, stepList⟩)])
  | _, _ => (.badRequest "Geçersiz program verisi", user)

/-- The quantity `T` of the executor-progression property: the sum over all
steps of `(ramp + duration + hold) × 60` seconds. -/
def sumOfStepTotalsSeconds (p : Program) : ℕ :=
  60 * (p.steps.map (fun s => s.ramp + s.time + s.hold)).sum

/-- Lower bound for the 0.1-rounding: it maps nonnegatives to
nonnegatives. -/
lemma roundTenth_nonneg (x : ℚ) (hx : 0 ≤ x) : 0 ≤ roundTenth x := by
  unfold roundTenth jsRound
  have h : (0 : ℤ) ≤ ⌊x * 10 + 1/2⌋ := Int.floor_nonneg.mpr (by linarith)
  have h2 : (0 : ℚ) ≤ ((⌊x * 10 + 1/2⌋ : ℤ) : ℚ) := by exact_mod_cast h
  linarith

/-- Upper bound for the 0.1-rounding in terms of an integer numerator. -/
lemma roundTenth_le_div (x : ℚ) (c : ℤ) (h : x * 10 + 1/2 < (c : ℚ) + 1) :
    roundTenth x ≤ (c : ℚ) / 10 := by
  unfold roundTenth jsRound
  have h1 : ⌊x * 10 + 1/2⌋ ≤ c := by
    by_contra hc
    push_neg at hc
    have hc1 : c + 1 ≤ ⌊x * 10 + 1/2⌋ := hc
    have hc2 : ((c + 1 : ℤ) : ℚ) ≤ x * 10 + 1/2 := Int.le_floor.mp hc1
    push_cast at hc2
    linarith
  have h2 : ((⌊x * 10 + 1/2⌋ : ℤ) : ℚ) ≤ (c : ℚ) := by exact_mod_cast h1
  linarith

/-- The 12-bit field extracted from a frame is at most 4095. -/
lemma frameField_le (raw : ℕ) : (raw >>> 3) &&& 0xFFF ≤ 4095 :=
  Nat.and_le_right

/-- Characterization of `decodeFrame`: the range branch never fires, since
the 12-bit field is at most 4095 and hence the pre-rounding temperature is
at most 1023.75. -/
lemma decodeFrame_eq (raw : ℕ) :
    decodeFrame raw =
      if raw = 0xFFFF ∨ raw = 0 then .busError
      else if raw &&& 4 ≠ 0 then .openCircuit
      else .temperature (roundTenth ((((raw >>> 3) &&& 0xFFF : ℕ) : ℚ) * (1/4))) := by
  have hq : ((raw >>> 3) &&& 0xFFF : ℕ) ≤ 4095 := frameField_le raw
  have hqQ : ((((raw >>> 3) &&& 0xFFF : ℕ) : ℚ)) ≤ 4095 := by exact_mod_cast hq
  have hq0 : (0 : ℚ) ≤ (((raw >>> 3) &&& 0xFFF : ℕ) : ℚ) := by positivity
  unfold decodeFrame
  by_cases h1 : raw = 0xFFFF ∨ raw = 0
  · rw [if_pos h1, if_pos h1]
  · rw [if_neg h1, if_neg h1]
    by_cases h2 : raw &&& 4 ≠ 0
    · rw [if_pos h2, if_pos h2]
    · rw [if_neg h2, if_neg h2, if_neg]
      push_neg
      constructor <;> linarith

/-- C3: for every 16-bit raw thermocouple frame, the decoder yields exactly
one of Temperature / OpenCircuit / BusError / OutOfRange (it is a total
function into `Sample`, whose constructors are disjoint), with the branches
tested in the order BusError (all-ones or all-zeros), then OpenCircuit
(bit 2), then the range check; in the remaining case it yields the
temperature `((raw >> 3) & 0xFFF) × 0.25` rounded to 0.1 °C, which lies in
`[-50, 1400]`. -/
theorem c3_frame_decode (raw : ℕ) (h16 : raw < 65536) :
    (raw = 0xFFFF ∨ raw = 0 → decodeFrame raw = .busError) ∧
    (¬(raw = 0xFFFF ∨ raw = 0) → raw &&& 4 ≠ 0 → decodeFrame raw = .openCircuit) ∧
    (¬(raw = 0xFFFF ∨ raw = 0) → raw &&& 4 = 0 →
      decodeFrame raw =
        .temperature (roundTenth ((((raw >>> 3) &&& 0xFFF : ℕ) : ℚ) * (1/4))) ∧
      (-50 : ℚ) ≤ roundTenth ((((raw >>> 3) &&& 0xFFF : ℕ) : ℚ) * (1/4)) ∧
      roundTenth ((((raw >>> 3) &&& 0xFFF : ℕ) : ℚ) * (1/4)) ≤ 1400) := by
  have hq : ((raw >>> 3) &&& 0xFFF : ℕ) ≤ 4095 := frameField_le raw
  have hq0 : (0 : ℚ) ≤ (((raw >>> 3) &&& 0xFFF : ℕ) : ℚ) * (1/4) := by positivity
  have hqQ : ((((raw >>> 3) &&& 0xFFF : ℕ) : ℚ)) ≤ 4095 := by exact_mod_cast hq
  refine ⟨fun h => ?_, fun h1 h2 => ?_, fun h1 h2 => ?_⟩
  · rw [decodeFrame_eq, if_pos h]
  · rw [decodeFrame_eq, if_neg h1, if_pos h2]
  · refine ⟨?_, ?_, ?_⟩
    · rw [decodeFrame_eq, if_neg h1, if_neg (show ¬raw &&& 4 ≠ 0 from fun hn => hn h2)]
    · have := roundTenth_nonneg ((((raw >>> 3) &&& 0xFFF : ℕ) : ℚ) * (1/4)) (by linarith)
      linarith
    · have := roundTenth_le_div ((((raw >>> 3) &&& 0xFFF : ℕ) : ℚ) * (1/4)) 10238
        (by linarith)
      have hd : ((10238 : ℤ) : ℚ) / 10 ≤ 1400 := by norm_num
      linarith

/-- Witness for C3 at the concrete frame `raw = 8` (12-bit field 1,
temperature 0.25 °C, rounded to 0.3). -/
theorem c3_frame_decode_witness :
    decodeFrame 8 =
      .temperature (roundTenth ((((8 >>> 3) &&& 0xFFF : ℕ) : ℚ) * (1/4))) ∧
    (-50 : ℚ) ≤ roundTenth ((((8 >>> 3) &&& 0xFFF : ℕ) : ℚ) * (1/4)) ∧
    roundTenth ((((8 >>> 3) &&& 0xFFF : ℕ) : ℚ) * (1/4)) ≤ 1400 :=
  (c3_frame_decode 8 (by decide)).2.2 (by decide) (by decide)

/-- Concrete evaluation of the decoder at the frame `0x7FF8 = 32760`: the
12-bit field is 4095, the pre-rounding temperature exactly 1023.75 °C, and
the 0.1-rounding of line 334 yields 1023.8 = 5119/5. -/
lemma decodeFrame_32760 : decodeFrame 32760 = Sample.temperature (5119/5) := by
  rw [decodeFrame_eq]
  have h3 : ((32760 >>> 3) &&& 0xFFF : ℕ) = 4095 := by decide
  rw [h3, if_neg (by decide), if_neg (show ¬((32760 : ℕ) &&& 4 ≠ 0) by decide)]
  norm_num [roundTenth, jsRound, Sample.temperature.injEq]

/-- C9 (counterexample to the stated bound): the frame `0x7FF8` decodes to
the maximal 12-bit field 4095, whose pre-rounding temperature is exactly
1023.75 °C, and the 0.1-rounding of line 334 reports 1023.8 °C — strictly
above 1023.75. -/
theorem c9_counterexample :
    decodeFrame 32760 = Sample.temperature (5119/5) ∧ (4095/4 : ℚ) < 5119/5 := by
  constructor
  · exact decodeFrame_32760
  · norm_num

/-- C9 (amended): for every frame that passes the bus and open-circuit
checks, the pre-rounding temperature `((raw >> 3) & 0xFFF) × 0.25` lies in
`[0, 1023.75]`, hence the out-of-range branch is unreachable; the decoder
therefore never reports a temperature above 1023.8 °C (the 0.1-rounding can
lift the maximal pre-rounding value 1023.75 to 1023.8). -/
theorem c9_decode_range (raw : ℕ) :
    0 ≤ (((raw >>> 3) &&& 0xFFF : ℕ) : ℚ) * (1/4) ∧
    (((raw >>> 3) &&& 0xFFF : ℕ) : ℚ) * (1/4) ≤ 4095/4 ∧
    decodeFrame raw ≠ .outOfRange ∧
    ∀ t, decodeFrame raw = .temperature t → 0 ≤ t ∧ t ≤ 5119/5 := by
  have hq : ((raw >>> 3) &&& 0xFFF : ℕ) ≤ 4095 := frameField_le raw
  have hq0 : (0 : ℚ) ≤ (((raw >>> 3) &&& 0xFFF : ℕ) : ℚ) * (1/4) := by positivity
  have hqQ : ((((raw >>> 3) &&& 0xFFF : ℕ) : ℚ)) ≤ 4095 := by exact_mod_cast hq
  have hub : (((raw >>> 3) &&& 0xFFF : ℕ) : ℚ) * (1/4) ≤ 4095/4 := by linarith
  refine ⟨hq0, hub, ?_, ?_⟩
  · rw [decodeFrame_eq]
    by_cases h1 : raw = 0xFFFF ∨ raw = 0
    · rw [if_pos h1]
      simp
    · rw [if_neg h1]
      by_cases h2 : raw &&& 4 ≠ 0
      · rw [if_pos h2]
        simp
      · rw [if_neg h2]
        simp
  · intro t ht
    rw [decodeFrame_eq] at ht
    by_cases h1 : raw = 0xFFFF ∨ raw = 0
    · rw [if_pos h1] at ht
      exact absurd ht (by simp)
    · rw [if_neg h1] at ht
      by_cases h2 : raw &&& 4 ≠ 0
      · rw [if_pos h2] at ht
        exact absurd ht (by simp)
      · rw [if_neg h2] at ht
        simp only [Sample.temperature.injEq] at ht
        subst ht
        refine ⟨roundTenth_nonneg _ hq0, ?_⟩
        have := roundTenth_le_div ((((raw >>> 3) &&& 0xFFF : ℕ) : ℚ) * (1/4)) 10238
          (by linarith)
        have hd : ((10238 : ℤ) : ℚ) / 10 = 5119/5 := by norm_num
        linarith

/-- Witness for C9's amended theorem: its last implication applied at the
concrete frame 32760, reporting exactly 1023.8 °C. -/
theorem c9_decode_range_witness : (0 : ℚ) ≤ 5119/5 ∧ (5119/5 : ℚ) ≤ 5119/5 :=
  (c9_decode_range 32760).2.2.2 (5119/5) decodeFrame_32760

/-- C5: every call to `calculate` returns an output in `[0, 100]` that is
an integer multiple of 0.1, and leaves the stored integral in `[-50, 50]`,
the integral having been updated as `integral + error × dt` before
clamping, with `dt = max((now − lastTime)/1000, 0.001)`. -/
theorem c5_pid_clamp (s : PIDState) (setpoint current : ℚ) (now : ℤ) :
    0 ≤ (s.calculate setpoint current now).1 ∧
    (s.calculate setpoint current now).1 ≤ 100 ∧
    (∃ k : ℤ, (s.calculate setpoint current now).1 = (k : ℚ) / 10) ∧
    (-50 : ℚ) ≤ (s.calculate setpoint current now).2.integral ∧
    (s.calculate setpoint current now).2.integral ≤ 50 ∧
    (s.calculate setpoint current now).2.integral =
      max (-50) (min 50 (s.integral + (setpoint - current) *
        max (((now - s.lastTime : ℤ) : ℚ) / 1000) (1/1000))) := by
  have h1 : (s.calculate setpoint current now).1
      = roundTenth (max 0 (min 100
          (s.kp * (setpoint - current) +
           s.ki * (max (-50) (min 50 (s.integral + (setpoint - current) *
             max (((now - s.lastTime : ℤ) : ℚ) / 1000) (1/1000)))) +
           s.kd * (((setpoint - current) - s.lastError) /
             max (((now - s.lastTime : ℤ) : ℚ) / 1000) (1/1000))))) := rfl
  have h2 : (s.calculate setpoint current now).2.integral
      = max (-50) (min 50 (s.integral + (setpoint - current) *
          max (((now - s.lastTime : ℤ) : ℚ) / 1000) (1/1000))) := rfl
  rw [h1, h2]
  set raw : ℚ := s.kp * (setpoint - current) +
      s.ki * (max (-50) (min 50 (s.integral + (setpoint - current) *
        max (((now - s.lastTime : ℤ) : ℚ) / 1000) (1/1000)))) +
      s.kd * (((setpoint - current) - s.lastError) /
        max (((now - s.lastTime : ℤ) : ℚ) / 1000) (1/1000)) with hraw
  have hout0 : (0 : ℚ) ≤ max 0 (min 100 raw) := le_max_left 0 _
  have hout100 : max 0 (min 100 raw) ≤ 100 :=
    max_le (by norm_num) (min_le_left 100 raw)
  refine ⟨?_, ?_, ⟨jsRound (max 0 (min 100 raw) * 10), rfl⟩, ?_, ?_, rfl⟩
  · exact roundTenth_nonneg _ hout0
  · have := roundTenth_le_div (max 0 (min 100 raw)) 1000 (by linarith)
    have hd : ((1000 : ℤ) : ℚ) / 10 = 100 := by norm_num
    linarith
  · exact le_max_left _ _
  · exact max_le (by norm_num) (min_le_left 50 _)

/-- One open-circuit read (frame 4: bit 2 set) appends exactly one entry
to the error log and changes nothing else about the log length. -/
lemma openCircuitRead_errors (st : SystemState) :
    ((readMAX6675Advanced 4 "TC1" st).2).errors = st.errors ++ ["TC1 termokupl hatası"] := by
  have hd : decodeFrame 4 = Sample.openCircuit := by
    rw [decodeFrame_eq, if_neg (by decide), if_pos (by decide)]
  unfold readMAX6675Advanced
  rw [hd]
  rfl

/-- C7 (counterexample to boundedness): sixty-five consecutive open-circuit
reads leave sixty-five entries in the error log — more than the claimed
bound of 64; nothing in the source ever trims `systemState.errors`. -/
theorem c7_counterexample :
    (((fun s => (readMAX6675Advanced 4 "TC1" s).2)^[65]) initialSystemState).errors.length = 65 ∧
    64 < 65 := by
  refine ⟨?_, by norm_num⟩
  have h : ∀ n (st : SystemState),
      (((fun s => (readMAX6675Advanced 4 "TC1" s).2)^[n]) st).errors.length
        = st.errors.length + n := by
    intro n
    induction n with
    | zero => intro st; simp
    | succ k ih =>
      intro st
      rw [Function.iterate_succ_apply, ih]
      simp [openCircuitRead_errors]
      omega
  rw [h 65 initialSystemState]
  simp [initialSystemState]

/-- C7 (amended): the in-memory error log is unbounded — `n` faulting reads
append exactly `n` entries and nothing ever trims the list — while the
`errors/clear` command does empty it. -/
theorem c7_error_log (n : ℕ) (st : SystemState) :
    (((fun s => (readMAX6675Advanced 4 "TC1" s).2)^[n]) st).errors.length
      = st.errors.length + n ∧
    (clearErrorsCommand st).errors = [] := by
  constructor
  · induction n with
    | zero => simp
    | succ k ih =>
      rw [Function.iterate_succ_apply']
      rw [openCircuitRead_errors]
      simp [ih]
      omega
  · rfl

section Projections

variable (st : SystemState) (g e : Bool) (p t : ℚ) (pid : PIDState) (now : ℤ)

@[simp] lemma setHeater_isRunning : (setHeaterPowerAdvanced st g p).1.isRunning = st.isRunning := by
  simp only [setHeaterPowerAdvanced]
  split_ifs <;> rfl

@[simp] lemma setHeater_isPaused : (setHeaterPowerAdvanced st g p).1.isPaused = st.isPaused := by
  simp only [setHeaterPowerAdvanced]
  split_ifs <;> rfl

@[simp] lemma setHeater_startTime : (setHeaterPowerAdvanced st g p).1.startTime = st.startTime := by
  simp only [setHeaterPowerAdvanced]
  split_ifs <;> rfl

@[simp] lemma setHeater_elapsedTime : (setHeaterPowerAdvanced st g p).1.elapsedTime = st.elapsedTime := by
  simp only [setHeaterPowerAdvanced]
  split_ifs <;> rfl

@[simp] lemma setHeater_currentProgram : (setHeaterPowerAdvanced st g p).1.currentProgram = st.currentProgram := by
  simp only [setHeaterPowerAdvanced]
  split_ifs <;> rfl

@[simp] lemma setHeater_currentStep : (setHeaterPowerAdvanced st g p).1.currentStep = st.currentStep := by
  simp only [setHeaterPowerAdvanced]
  split_ifs <;> rfl

@[simp] lemma setHeater_tempCurrent : (setHeaterPowerAdvanced st g p).1.tempCurrent = st.tempCurrent := by
  simp only [setHeaterPowerAdvanced]
  split_ifs <;> rfl

@[simp] lemma setHeater_tempTarget : (setHeaterPowerAdvanced st g p).1.tempTarget = st.tempTarget := by
  simp only [setHeaterPowerAdvanced]
  split_ifs <;> rfl

@[simp] lemma setHeater_doorOpen : (setHeaterPowerAdvanced st g p).1.doorOpen = st.doorOpen := by
  simp only [setHeaterPowerAdvanced]
  split_ifs <;> rfl

@[simp] lemma setHeater_emergency : (setHeaterPowerAdvanced st g p).1.emergency = st.emergency := by
  simp only [setHeaterPowerAdvanced]
  split_ifs <;> rfl

@[simp] lemma setHeater_errors : (setHeaterPowerAdvanced st g p).1.errors = st.errors := by
  simp only [setHeaterPowerAdvanced]
  split_ifs <;> rfl

/-- A zero-power heater call records zero duty in every mode. -/
@[simp] lemma setHeaterZero_heaterPower : (setHeaterPowerAdvanced st g 0).1.heaterPower = 0 := by
  have hc : max (0 : ℚ) (min 100 0) = 0 := by norm_num
  simp only [setHeaterPowerAdvanced]
  split_ifs <;> simp [hc]

/-- A zero-power heater call writes only level 0 to the SSR pin. -/
lemma setHeaterZero_writes :
    ∀ w ∈ (setHeaterPowerAdvanced st g 0).2.toList, w = false := by
  simp only [setHeaterPowerAdvanced]
  split_ifs with h1 h2 h3
  · simp
  · simp
  · exfalso
    norm_num at h3
  · simp

@[simp] lemma setVacuum_isRunning : (setVacuumControl st g e t).isRunning = st.isRunning := by
  simp only [setVacuumControl]
  split_ifs <;> rfl

@[simp] lemma setVacuum_isPaused : (setVacuumControl st g e t).isPaused = st.isPaused := by
  simp only [setVacuumControl]
  split_ifs <;> rfl

@[simp] lemma setVacuum_startTime : (setVacuumControl st g e t).startTime = st.startTime := by
  simp only [setVacuumControl]
  split_ifs <;> rfl

@[simp] lemma setVacuum_elapsedTime : (setVacuumControl st g e t).elapsedTime = st.elapsedTime := by
  simp only [setVacuumControl]
  split_ifs <;> rfl

@[simp] lemma setVacuum_currentProgram : (setVacuumControl st g e t).currentProgram = st.currentProgram := by
  simp only [setVacuumControl]
  split_ifs <;> rfl

@[simp] lemma setVacuum_currentStep : (setVacuumControl st g e t).currentStep = st.currentStep := by
  simp only [setVacuumControl]
  split_ifs <;> rfl

@[simp] lemma setVacuum_tempCurrent : (setVacuumControl st g e t).tempCurrent = st.tempCurrent := by
  simp only [setVacuumControl]
  split_ifs <;> rfl

@[simp] lemma setVacuum_tempTarget : (setVacuumControl st g e t).tempTarget = st.tempTarget := by
  simp only [setVacuumControl]
  split_ifs <;> rfl

@[simp] lemma setVacuum_doorOpen : (setVacuumControl st g e t).doorOpen = st.doorOpen := by
  simp only [setVacuumControl]
  split_ifs <;> rfl

@[simp] lemma setVacuum_emergency : (setVacuumControl st g e t).emergency = st.emergency := by
  simp only [setVacuumControl]
  split_ifs <;> rfl

@[simp] lemma setVacuum_errors : (setVacuumControl st g e t).errors = st.errors := by
  simp only [setVacuumControl]
  split_ifs <;> rfl

@[simp] lemma setVacuum_heaterPower : (setVacuumControl st g e t).heaterPower = st.heaterPower := by
  simp only [setVacuumControl]
  split_ifs <;> rfl

@[simp] lemma setFan_isRunning : (setFanControl st e).isRunning = st.isRunning := rfl

@[simp] lemma setFan_isPaused : (setFanControl st e).isPaused = st.isPaused := rfl

@[simp] lemma setFan_startTime : (setFanControl st e).startTime = st.startTime := rfl

@[simp] lemma setFan_elapsedTime : (setFanControl st e).elapsedTime = st.elapsedTime := rfl

@[simp] lemma setFan_currentProgram : (setFanControl st e).currentProgram = st.currentProgram := rfl

@[simp] lemma setFan_currentStep : (setFanControl st e).currentStep = st.currentStep := rfl

@[simp] lemma setFan_tempCurrent : (setFanControl st e).tempCurrent = st.tempCurrent := rfl

@[simp] lemma setFan_tempTarget : (setFanControl st e).tempTarget = st.tempTarget := rfl

@[simp] lemma setFan_doorOpen : (setFanControl st e).doorOpen = st.doorOpen := rfl

@[simp] lemma setFan_emergency : (setFanControl st e).emergency = st.emergency := rfl

@[simp] lemma setFan_errors : (setFanControl st e).errors = st.errors := rfl

@[simp] lemma setFan_heaterPower : (setFanControl st e).heaterPower = st.heaterPower := rfl

@[simp] lemma pushError_isRunning (m : String) : (pushError st m).isRunning = st.isRunning := rfl

@[simp] lemma pushError_isPaused (m : String) : (pushError st m).isPaused = st.isPaused := rfl

@[simp] lemma pushError_tempCurrent (m : String) : (pushError st m).tempCurrent = st.tempCurrent := rfl

@[simp] lemma pushError_heaterPower (m : String) : (pushError st m).heaterPower = st.heaterPower := rfl

end Projections

section FuseProjections

variable (r1 r2 : Option ℚ) (st : SystemState)

@[simp] lemma fuse_isRunning : (fuseTemperatures r1 r2 st).isRunning = st.isRunning := by
  unfold fuseTemperatures
  cases r1 <;> cases r2 <;> rfl

@[simp] lemma fuse_isPaused : (fuseTemperatures r1 r2 st).isPaused = st.isPaused := by
  unfold fuseTemperatures
  cases r1 <;> cases r2 <;> rfl

@[simp] lemma fuse_startTime : (fuseTemperatures r1 r2 st).startTime = st.startTime := by
  unfold fuseTemperatures
  cases r1 <;> cases r2 <;> rfl

@[simp] lemma fuse_elapsedTime : (fuseTemperatures r1 r2 st).elapsedTime = st.elapsedTime := by
  unfold fuseTemperatures
  cases r1 <;> cases r2 <;> rfl

@[simp] lemma fuse_currentProgram : (fuseTemperatures r1 r2 st).currentProgram = st.currentProgram := by
  unfold fuseTemperatures
  cases r1 <;> cases r2 <;> rfl

@[simp] lemma fuse_currentStep : (fuseTemperatures r1 r2 st).currentStep = st.currentStep := by
  unfold fuseTemperatures
  cases r1 <;> cases r2 <;> rfl

@[simp] lemma fuse_doorOpen : (fuseTemperatures r1 r2 st).doorOpen = st.doorOpen := by
  unfold fuseTemperatures
  cases r1 <;> cases r2 <;> rfl

@[simp] lemma fuse_emergency : (fuseTemperatures r1 r2 st).emergency = st.emergency := by
  unfold fuseTemperatures
  cases r1 <;> cases r2 <;> rfl

@[simp] lemma fuse_heaterPower : (fuseTemperatures r1 r2 st).heaterPower = st.heaterPower := by
  unfold fuseTemperatures
  cases r1 <;> cases r2 <;> rfl

@[simp] lemma fuse_errors : (fuseTemperatures r1 r2 st).errors = st.errors := by
  unfold fuseTemperatures
  cases r1 <;> cases r2 <;> rfl

@[simp] lemma fuse_tempTarget : (fuseTemperatures r1 r2 st).tempTarget = st.tempTarget := by
  unfold fuseTemperatures
  cases r1 <;> cases r2 <;> rfl

lemma fuse_tempCurrent_none_none : (fuseTemperatures none none st).tempCurrent = st.tempCurrent := rfl

lemma fuse_tempCurrent_both (a b : ℚ) :
    (fuseTemperatures (some a) (some b) st).tempCurrent = (a + b) / 2 := rfl

lemma fuse_tempCurrent_left (a : ℚ) :
    (fuseTemperatures (some a) none st).tempCurrent = a := rfl

lemma fuse_tempCurrent_right (b : ℚ) :
    (fuseTemperatures none (some b) st).tempCurrent = b := rfl

end FuseProjections

section Composites

variable (st : SystemState) (pid : PIDState) (g : Bool) (now : ℤ)

@[simp] lemma emergencyStop_isRunning : (emergencyStop st pid g now).1.isRunning = false := by
  simp [emergencyStop]

@[simp] lemma emergencyStop_isPaused : (emergencyStop st pid g now).1.isPaused = false := by
  simp [emergencyStop]

@[simp] lemma emergencyStop_doorOpen : (emergencyStop st pid g now).1.doorOpen = st.doorOpen := by
  simp [emergencyStop]

@[simp] lemma emergencyStop_emergency : (emergencyStop st pid g now).1.emergency = st.emergency := by
  simp [emergencyStop]

@[simp] lemma emergencyStop_tempCurrent : (emergencyStop st pid g now).1.tempCurrent = st.tempCurrent := by
  simp [emergencyStop]

@[simp] lemma emergencyStop_heaterPower : (emergencyStop st pid g now).1.heaterPower = 0 := by
  simp [emergencyStop]

lemma emergencyStop_writes : ∀ w ∈ (emergencyStop st pid g now).2.2, w = false := by
  simp only [emergencyStop]
  exact setHeaterZero_writes _ g

@[simp] lemma pauseProgram_isRunning : (pauseProgram st g).1.isRunning = st.isRunning := by
  simp [pauseProgram]

@[simp] lemma pauseProgram_isPaused : (pauseProgram st g).1.isPaused = true := by
  simp [pauseProgram]

@[simp] lemma pauseProgram_doorOpen : (pauseProgram st g).1.doorOpen = st.doorOpen := by
  simp [pauseProgram]

@[simp] lemma pauseProgram_emergency : (pauseProgram st g).1.emergency = st.emergency := by
  simp [pauseProgram]

@[simp] lemma pauseProgram_tempCurrent : (pauseProgram st g).1.tempCurrent = st.tempCurrent := by
  simp [pauseProgram]

@[simp] lemma pauseProgram_heaterPower : (pauseProgram st g).1.heaterPower = 0 := by
  simp [pauseProgram]

lemma pauseProgram_writes : ∀ w ∈ (pauseProgram st g).2, w = false := by
  simp only [pauseProgram]
  exact setHeaterZero_writes _ g

@[simp] lemma stopProgram_isRunning : (stopProgram st pid g now).1.isRunning = false := by
  simp [stopProgram]

@[simp] lemma stopProgram_isPaused : (stopProgram st pid g now).1.isPaused = false := by
  simp [stopProgram]

@[simp] lemma stopProgram_startTime : (stopProgram st pid g now).1.startTime = none := by
  simp [stopProgram]

@[simp] lemma stopProgram_currentStep : (stopProgram st pid g now).1.currentStep = 0 := by
  simp [stopProgram]

@[simp] lemma stopProgram_tempCurrent : (stopProgram st pid g now).1.tempCurrent = st.tempCurrent := by
  simp [stopProgram]

@[simp] lemma stopProgram_heaterPower : (stopProgram st pid g now).1.heaterPower = 0 := by
  simp [stopProgram]

lemma stopProgram_writes : ∀ w ∈ (stopProgram st pid g now).2.2, w = false := by
  simp only [stopProgram]
  exact setHeaterZero_writes _ g

end Composites

/-- C1: on every tick, whatever duty the PID requests and whatever the run
state, if the emergency input is active or the door is open after the
sensor poll, then the heater duty recorded in the snapshot at the end of
the tick is 0 and every level written to the SSR pin during the tick
is 0. -/
theorem c1_heater_interlock (builtin user : List (ℕ × Program)) (inp : TickInput)
    (st : SystemState) (pid : PIDState)
    (h : (readSensors inp st).emergency = true ∨ (readSensors inp st).doorOpen = true) :
    (tick builtin user inp st pid).1.heaterPower = 0 ∧
    ∀ w ∈ (tick builtin user inp st pid).2.2, w = false := by
  have h1 : (fuseTemperatures inp.tc1Reading inp.tc2Reading (readSensors inp st)).emergency = true
      ∨ (fuseTemperatures inp.tc1Reading inp.tc2Reading (readSensors inp st)).doorOpen = true := by
    simpa using h
  simp only [tick]
  split_ifs with hE hD hRa hRb hD2 hRc hRd
  · exfalso
    simp at hD
  · exfalso
    simp at hD
  · exfalso
    simp at hRb
  · refine ⟨by simp, ?_⟩
    intro w hw
    rcases List.mem_append.mp hw with hw2 | hw2
    · rcases List.mem_append.mp hw2 with hw3 | hw3
      · exact emergencyStop_writes _ _ _ _ w hw3
      · exfalso
        simp at hw3
    · exact setHeaterZero_writes _ _ w hw2
  · exfalso
    simp at hRc
  · refine ⟨by simp, ?_⟩
    intro w hw
    rcases List.mem_append.mp hw with hw2 | hw2
    · rcases List.mem_append.mp hw2 with hw3 | hw3
      · exfalso
        simp at hw3
      · exact pauseProgram_writes _ _ w hw3
    · exact setHeaterZero_writes _ _ w hw2
  · exfalso
    have hrun : (fuseTemperatures inp.tc1Reading inp.tc2Reading (readSensors inp st)).isRunning = true := by
      simpa using hRd.1
    rcases h1 with h1 | h1
    · exact hE ⟨h1, hrun⟩
    · exact hD2 (by simpa using And.intro h1 hrun)
  · refine ⟨by simp, ?_⟩
    intro w hw
    rcases List.mem_append.mp hw with hw2 | hw2
    · exfalso
      simp at hw2
    · exact setHeaterZero_writes _ _ w hw2

/-- Witness for C1: one concrete tick in simulation mode with the
emergency flag latched; the tick records zero heater duty and writes no
nonzero SSR level. -/
theorem c1_heater_interlock_witness :
    (tick builtinPrograms []
        ⟨false, true, true, none, none, 0⟩
        { initialSystemState with emergency := true }
        initialPIDState).1.heaterPower = 0 ∧
    ∀ w ∈ (tick builtinPrograms []
        ⟨false, true, true, none, none, 0⟩
        { initialSystemState with emergency := true }
        initialPIDState).2.2, w = false :=
  c1_heater_interlock builtinPrograms []
    ⟨false, true, true, none, none, 0⟩
    { initialSystemState with emergency := true }
    initialPIDState (Or.inl rfl)

section IteVacuum

variable (c : Prop) [Decidable c] (x : SystemState) (g : Bool) (v w : ℚ) (e1 e2 : Bool)

@[simp] lemma iteVacuum_startTime :
    (if c then setVacuumControl x g e1 v else setVacuumControl x g e2 w).startTime = x.startTime := by
  split_ifs <;> simp

@[simp] lemma iteVacuum_isRunning :
    (if c then setVacuumControl x g e1 v else setVacuumControl x g e2 w).isRunning = x.isRunning := by
  split_ifs <;> simp

@[simp] lemma iteVacuum_isPaused :
    (if c then setVacuumControl x g e1 v else setVacuumControl x g e2 w).isPaused = x.isPaused := by
  split_ifs <;> simp

@[simp] lemma iteVacuum_currentStep :
    (if c then setVacuumControl x g e1 v else setVacuumControl x g e2 w).currentStep = x.currentStep := by
  split_ifs <;> simp

@[simp] lemma iteVacuum_currentProgram :
    (if c then setVacuumControl x g e1 v else setVacuumControl x g e2 w).currentProgram = x.currentProgram := by
  split_ifs <;> simp

@[simp] lemma iteVacuum_elapsedTime :
    (if c then setVacuumControl x g e1 v else setVacuumControl x g e2 w).elapsedTime = x.elapsedTime := by
  split_ifs <;> simp

@[simp] lemma iteVacuum_tempCurrent :
    (if c then setVacuumControl x g e1 v else setVacuumControl x g e2 w).tempCurrent = x.tempCurrent := by
  split_ifs <;> simp

@[simp] lemma iteVacuum_tempTarget :
    (if c then setVacuumControl x g e1 v else setVacuumControl x g e2 w).tempTarget = x.tempTarget := by
  split_ifs <;> simp

@[simp] lemma iteVacuum_doorOpen :
    (if c then setVacuumControl x g e1 v else setVacuumControl x g e2 w).doorOpen = x.doorOpen := by
  split_ifs <;> simp

@[simp] lemma iteVacuum_emergency :
    (if c then setVacuumControl x g e1 v else setVacuumControl x g e2 w).emergency = x.emergency := by
  split_ifs <;> simp

@[simp] lemma iteVacuum_errors :
    (if c then setVacuumControl x g e1 v else setVacuumControl x g e2 w).errors = x.errors := by
  split_ifs <;> simp

@[simp] lemma iteVacuum_heaterPower :
    (if c then setVacuumControl x g e1 v else setVacuumControl x g e2 w).heaterPower = x.heaterPower := by
  split_ifs <;> simp

end IteVacuum

/-- C2 (amended): the executor compares the *total* elapsed time since the
run started (`elapsedTime = ⌊(now − startTime)/1000⌋`, line 562) against
the *current step's own* total `(ramp + time + hold) × 60 s` (lines
565–567); `startTime` is never reset on a step change, so a step ends when
the total elapsed time reaches that step's total — not the time spent in
the step — and the run stops at the first tick on the last step whose
total elapsed time reaches the last step's total.  Only for single-step
programs does this coincide with the sum of all step totals. -/
theorem c2_executor_progression (builtin user : List (ℕ × Program)) (now t0 : ℤ)
    (st : SystemState) (pid : PIDState) (g : Bool) (prog : Program) (step : Step)
    (hres : resolveProgram builtin user st.currentProgram = some prog)
    (hstep : prog.steps.get? st.currentStep = some step)
    (hrt : st.startTime = some t0) (ht0 : t0 ≠ 0) :
    ∃ r, executeProgram builtin user now st pid g = some r ∧
      ((Int.fdiv (now - t0) 1000 < ((step.ramp + step.time + step.hold : ℕ) : ℤ) * 60 →
         r.1.isRunning = st.isRunning ∧ r.1.isPaused = st.isPaused ∧
         r.1.currentStep = st.currentStep ∧ r.1.startTime = some t0) ∧
       (((step.ramp + step.time + step.hold : ℕ) : ℤ) * 60 ≤ Int.fdiv (now - t0) 1000 →
         (st.currentStep < prog.steps.length - 1 →
           r.1.currentStep = st.currentStep + 1 ∧ r.1.isRunning = st.isRunning ∧
           r.1.isPaused = st.isPaused ∧ r.1.startTime = some t0) ∧
         (¬ st.currentStep < prog.steps.length - 1 →
           r.1.isRunning = false ∧ r.1.isPaused = false ∧ r.1.startTime = none ∧
           r.1.currentStep = 0))) := by
  simp only [executeProgram, hres, hstep, setHeater_startTime, setHeater_currentStep,
    iteVacuum_startTime, iteVacuum_currentStep, hrt]
  rw [if_neg ht0]
  by_cases hT : ((step.ramp + step.time + step.hold : ℕ) : ℤ) * 60 ≤ Int.fdiv (now - t0) 1000
  · rw [if_pos hT]
    by_cases hS : st.currentStep < prog.steps.length - 1
    · rw [if_pos hS]
      refine ⟨_, rfl, ?_, ?_⟩
      · intro h
        exact absurd hT (not_le.mpr h)
      · intro _
        refine ⟨fun hS2 => ?_, fun hS2 => absurd hS hS2⟩
        refine ⟨by simp, by simp, by simp, by simp⟩
    · rw [if_neg hS]
      refine ⟨_, rfl, ?_, ?_⟩
      · intro h
        exact absurd hT (not_le.mpr h)
      · intro _
        refine ⟨fun hS2 => absurd hS2 hS, fun _ => ?_⟩
        refine ⟨by simp, by simp, by simp, by simp⟩
  · rw [if_neg hT]
    refine ⟨_, rfl, ?_, ?_⟩
    · intro _
      refine ⟨by simp, by simp, by simp, by simp⟩
    · intro h
      exact absurd h hT

/-- Witness for C2's theorem: the second (last) step of the built-in
Zirkonyum program, examined at a tick 7200 s after the run start. -/
theorem c2_executor_progression_witness :
    ∃ r, executeProgram builtinPrograms [] 8200000
        { initialSystemState with
          currentProgram := 2, currentStep := 1, isRunning := true,
          startTime := some 1000000 }
        initialPIDState false = some r ∧
      ((Int.fdiv (8200000 - 1000000) 1000 < ((45 + 120 + 15 : ℕ) : ℤ) * 60 →
         r.1.isRunning = true ∧ r.1.isPaused = false ∧
         r.1.currentStep = 1 ∧ r.1.startTime = some 1000000) ∧
       (((45 + 120 + 15 : ℕ) : ℤ) * 60 ≤ Int.fdiv (8200000 - 1000000) 1000 →
         (1 < 2 - 1 →
           r.1.currentStep = 2 ∧ r.1.isRunning = true ∧
           r.1.isPaused = false ∧ r.1.startTime = some 1000000) ∧
         (¬ 1 < 2 - 1 →
           r.1.isRunning = false ∧ r.1.isPaused = false ∧ r.1.startTime = none ∧
           r.1.currentStep = 0))) :=
  c2_executor_progression builtinPrograms [] 8200000 1000000
    { initialSystemState with
      currentProgram := 2, currentStep := 1, isRunning := true,
      startTime := some 1000000 }
    initialPIDState false ⟨"Zirkonyum", [⟨600, 30, 0, 10, 20⟩, ⟨1530, 120, 0, 15, 45⟩]⟩
    ⟨1530, 120, 0, 15, 45⟩ rfl rfl rfl (by decide)

/-- C2 (counterexample to the claim as stated): run the built-in two-step
Zirkonyum program (step totals 60 min and 180 min, so T = 240 min =
14400 s).  Started at clock 1 000 000 ms, with ticks at 3600 s, 7200 s and
10800 s of simulated elapsed time, the run leaves step 0 exactly at
3600 s, is still on step 1 at 7200 s, and stops at 10800 s — when the
total elapsed time reaches the *last step's own* total — which is strictly
before T = 14400 s, refuting both "each step ends when the time elapsed in
that step reaches that step's total" (step 1 only ran for 7200 s) and
"reaches the stop exactly when elapsed reaches the sum of all step
totals". -/
theorem c2_counterexample :
    (let start := startCommand builtinPrograms [] 1000000 initialSystemState
        initialPIDState (some 2)
     let t1 := tick builtinPrograms [] ⟨false, true, true, none, none, 4600000⟩
        start.2.1 start.2.2
     let t2 := tick builtinPrograms [] ⟨false, true, true, none, none, 8200000⟩
        t1.1 t1.2.1
     let t3 := tick builtinPrograms [] ⟨false, true, true, none, none, 11800000⟩
        t2.1 t2.2.1
     start.2.1.isRunning = true ∧ start.2.1.currentStep = 0 ∧
     t1.1.isRunning = true ∧ t1.1.currentStep = 1 ∧
     t2.1.isRunning = true ∧ t2.1.currentStep = 1 ∧
     t3.1.isRunning = false) ∧
    sumOfStepTotalsSeconds ⟨"Zirkonyum", [⟨600, 30, 0, 10, 20⟩, ⟨1530, 120, 0, 15, 45⟩]⟩
      = 14400 ∧
    Int.fdiv (11800000 - 1000000) 1000 = 10800 ∧ (10800 : ℤ) < 14400 := by
  constructor
  · decide
  · constructor
    · decide
    · constructor
      · decide
      · decide

@[simp] lemma readSensors_tempCurrent (inp : TickInput) (st : SystemState) :
    (readSensors inp st).tempCurrent = st.tempCurrent := by
  unfold readSensors
  split_ifs <;> rfl

/-- `executeProgram` never writes `temperatures.current`: whenever it
returns normally, the fused temperature is the one it was given. -/
lemma executeProgram_tempCurrent (builtin user : List (ℕ × Program)) (now : ℤ)
    (st : SystemState) (pid : PIDState) (g : Bool)
    (r : SystemState × PIDState × List Bool)
    (h : executeProgram builtin user now st pid g = some r) :
    r.1.tempCurrent = st.tempCurrent := by
  obtain ⟨r1, r2, r3⟩ := r
  simp only [executeProgram, setHeater_startTime, setHeater_currentStep,
    iteVacuum_startTime, iteVacuum_currentStep] at h
  cases hr0 : resolveProgram builtin user st.currentProgram with
  | none =>
    simp only [hr0, Option.some.injEq, Prod.mk.injEq] at h
    obtain ⟨h1, h2, h3⟩ := h
    subst h1
    rfl
  | some prog =>
    simp only [hr0] at h
    cases hg : prog.steps.get? st.currentStep with
    | some step =>
      simp only [hg] at h
      cases hst : st.startTime with
      | none =>
        simp only [hst, Option.some.injEq, Prod.mk.injEq] at h
        obtain ⟨h1, h2, h3⟩ := h
        subst h1
        simp
      | some t0 =>
        simp only [hst] at h
        by_cases ht0 : t0 = 0
        · simp only [if_pos ht0, Option.some.injEq, Prod.mk.injEq] at h
          obtain ⟨h1, h2, h3⟩ := h
          subst h1
          simp
        · simp only [if_neg ht0] at h
          split_ifs at h <;>
            (simp only [Option.some.injEq, Prod.mk.injEq] at h
             obtain ⟨h1, h2, h3⟩ := h
             subst h1
             simp)
    | none =>
      simp only [hg] at h
      cases hg0 : prog.steps.get? 0 with
      | none =>
        simp only [hg0] at h
        exact Option.noConfusion h
      | some step =>
        simp only [hg0] at h
        cases hst : st.startTime with
        | none =>
          simp only [hst, Option.some.injEq, Prod.mk.injEq] at h
          obtain ⟨h1, h2, h3⟩ := h
          subst h1
          simp
        | some t0 =>
          simp only [hst] at h
          by_cases ht0 : t0 = 0
          · simp only [if_pos ht0, Option.some.injEq, Prod.mk.injEq] at h
            obtain ⟨h1, h2, h3⟩ := h
            subst h1
            simp
          · simp only [if_neg ht0] at h
            split_ifs at h <;>
              (simp only [Option.some.injEq, Prod.mk.injEq] at h
               obtain ⟨h1, h2, h3⟩ := h
               subst h1
               simp)

/-- The tick publishes exactly the fused temperature: nothing after the
fusion block touches `temperatures.current`. -/
lemma tick_tempCurrent (builtin user : List (ℕ × Program)) (inp : TickInput)
    (st : SystemState) (pid : PIDState) :
    (tick builtin user inp st pid).1.tempCurrent
      = (fuseTemperatures inp.tc1Reading inp.tc2Reading (readSensors inp st)).tempCurrent := by
  simp only [tick]
  split_ifs with hE hD hRa hRb hD2 hRc hRd
  · split
    · next x hx =>
      have hxx := executeProgram_tempCurrent _ _ _ _ _ _ _ hx
      simpa using hxx
    · simp
  · simp
  · split
    · next x hx =>
      have hxx := executeProgram_tempCurrent _ _ _ _ _ _ _ hx
      simpa using hxx
    · simp
  · simp
  · split
    · next x hx =>
      have hxx := executeProgram_tempCurrent _ _ _ _ _ _ _ hx
      simpa using hxx
    · simp
  · simp
  · split
    · next x hx =>
      have hxx := executeProgram_tempCurrent _ _ _ _ _ _ _ hx
      simpa using hxx
    · simp
  · simp

/-- C4 (amended): on every tick the fused `current_temp` is the mean of
the two readings when both are valid, the single valid reading when one
is, and the previous value unchanged when neither is — and there is no
sensor-loss escalation: over any run of ticks in which neither channel
ever yields a valid sample, `current_temp` simply stays at its previous
value forever (the source has no fault counter and no SensorLost state). -/
theorem c4_fusion (builtin user : List (ℕ × Program)) (inp : TickInput)
    (st : SystemState) (pid : PIDState) :
    (inp.tc1Reading = none → inp.tc2Reading = none →
      (tick builtin user inp st pid).1.tempCurrent = st.tempCurrent) ∧
    (∀ a b2, inp.tc1Reading = some a → inp.tc2Reading = some b2 →
      (tick builtin user inp st pid).1.tempCurrent = (a + b2) / 2) ∧
    (∀ a, inp.tc1Reading = some a → inp.tc2Reading = none →
      (tick builtin user inp st pid).1.tempCurrent = a) ∧
    (∀ b2, inp.tc1Reading = none → inp.tc2Reading = some b2 →
      (tick builtin user inp st pid).1.tempCurrent = b2) ∧
    (∀ inps : List TickInput, (∀ i ∈ inps, i.tc1Reading = none ∧ i.tc2Reading = none) →
      ((inps.foldl (fun acc i =>
          ((tick builtin user i acc.1 acc.2).1, (tick builtin user i acc.1 acc.2).2.1))
          (st, pid)).1).tempCurrent = st.tempCurrent) := by
  have hone : ∀ (i : TickInput) (s : SystemState) (q : PIDState),
      i.tc1Reading = none → i.tc2Reading = none →
      (tick builtin user i s q).1.tempCurrent = s.tempCurrent := by
    intro i s q h1 h2
    rw [tick_tempCurrent, h1, h2, fuse_tempCurrent_none_none, readSensors_tempCurrent]
  refine ⟨fun h1 h2 => hone inp st pid h1 h2, ?_, ?_, ?_, ?_⟩
  · intro a b2 h1 h2
    rw [tick_tempCurrent, h1, h2, fuse_tempCurrent_both]
  · intro a h1 h2
    rw [tick_tempCurrent, h1, h2, fuse_tempCurrent_left]
  · intro b2 h1 h2
    rw [tick_tempCurrent, h1, h2, fuse_tempCurrent_right]
  · intro inps
    induction inps generalizing st pid with
    | nil => intro _; rfl
    | cons i is ih =>
      intro hall
      rw [List.foldl_cons]
      rw [ih _ _ (fun j hj => hall j (List.mem_cons_of_mem i hj))]
      exact hone i st pid (hall i (List.mem_cons_self i is)).1
        (hall i (List.mem_cons_self i is)).2

/-- Witness for C4's theorem: a tick whose two reads are 30 °C and 40 °C
publishes their mean. -/
theorem c4_fusion_witness :
    (tick builtinPrograms [] ⟨false, true, true, some 30, some 40, 500⟩
      initialSystemState initialPIDState).1.tempCurrent = (30 + 40) / 2 :=
  (c4_fusion builtinPrograms [] ⟨false, true, true, some 30, some 40, 500⟩
    initialSystemState initialPIDState).2.1 30 40 rfl rfl

/-- C4 (counterexample to the escalation clause): three consecutive ticks
of a running program during which neither thermocouple yields a valid
sample leave the controller still running, unpaused, unfaulted, with the
stale fused temperature — no transition to any Fault(SensorLost) state
occurs (no such state or counter exists in the source). -/
theorem c4_counterexample :
    (let st0 := { initialSystemState with
        currentProgram := 2, isRunning := true, startTime := some 1000000 }
     let t1 := tick builtinPrograms [] ⟨false, true, true, none, none, 1000500⟩
        st0 initialPIDState
     let t2 := tick builtinPrograms [] ⟨false, true, true, none, none, 1001000⟩
        t1.1 t1.2.1
     let t3 := tick builtinPrograms [] ⟨false, true, true, none, none, 1001500⟩
        t2.1 t2.2.1
     t3.1.isRunning = true ∧ t3.1.isPaused = false ∧ t3.1.emergency = false ∧
     t3.1.tempCurrent = 25 ∧ t3.1.currentStep = 0 ∧ t3.1.errors = []) := by
  decide

/-- C6: the start command refuses with 400 and a reason while a program is
running, while the emergency stop is active, and while the door is open —
in each case returning with the system state and the PID controller
completely unchanged — and it can only answer `started` when none of the
three interlock conditions holds. -/
theorem c6_start_gate (builtin user : List (ℕ × Program)) (now : ℤ)
    (st : SystemState) (pid : PIDState) (programId : Option ℕ) :
    (st.isRunning = true →
      startCommand builtin user now st pid programId
        = (.badRequest "Program zaten çalışıyor", st, pid)) ∧
    (st.isRunning = false → st.emergency = true →
      startCommand builtin user now st pid programId
        = (.badRequest "Acil durdurma aktif", st, pid)) ∧
    (st.isRunning = false → st.emergency = false → st.doorOpen = true →
      startCommand builtin user now st pid programId
        = (.badRequest "Kapı açık", st, pid)) ∧
    (∀ name k target,
      (startCommand builtin user now st pid programId).1 = .ok name k target →
      st.isRunning = false ∧ st.emergency = false ∧ st.doorOpen = false) := by
  refine ⟨fun h => ?_, fun h1 h2 => ?_, fun h1 h2 h3 => ?_, ?_⟩
  · unfold startCommand
    rw [if_pos h]
  · unfold startCommand
    rw [if_neg (by simp [h1]), if_pos h2]
  · unfold startCommand
    rw [if_neg (by simp [h1]), if_neg (by simp [h2]), if_pos h3]
  · intro name k target hok
    by_cases hr : st.isRunning = true
    · unfold startCommand at hok
      rw [if_pos hr] at hok
      exact absurd hok (by simp)
    · have hr2 : st.isRunning = false := by simpa using hr
      by_cases he : st.emergency = true
      · unfold startCommand at hok
        rw [if_neg (by simp [hr2]), if_pos he] at hok
        exact absurd hok (by simp)
      · have he2 : st.emergency = false := by simpa using he
        by_cases hd : st.doorOpen = true
        · unfold startCommand at hok
          rw [if_neg (by simp [hr2]), if_neg (by simp [he2]), if_pos hd] at hok
          exact absurd hok (by simp)
        · exact ⟨hr2, he2, by simpa using hd⟩

/-- Witness for C6: a start request while a program is already running is
refused and mutates nothing. -/
theorem c6_start_gate_witness :
    startCommand builtinPrograms [] 0 { initialSystemState with isRunning := true }
      initialPIDState none
      = (.badRequest "Program zaten çalışıyor",
         { initialSystemState with isRunning := true }, initialPIDState) :=
  (c6_start_gate builtinPrograms [] 0 { initialSystemState with isRunning := true }
    initialPIDState none).1 rfl

/-- C10: a start request naming a `programId` that matches no built-in and
no user program, issued while idle with no interlock active, is not
rejected: the previously selected `currentProgram` is kept and that
program is started, with its first step's temperature as target. -/
theorem c10_unknown_program_start (builtin user : List (ℕ × Program)) (now : ℤ)
    (st : SystemState) (pid : PIDState) (p : ℕ) (prog : Program)
    (s1 : Step) (rest : List Step)
    (hrun : st.isRunning = false) (hem : st.emergency = false)
    (hdoor : st.doorOpen = false)
    (hb : builtin.lookup p = none) (hu : user.lookup p = none)
    (hsel : startResolve builtin user st.currentProgram = some prog)
    (hsteps : prog.steps = s1 :: rest) :
    (startCommand builtin user now st pid (some p)).1
        = .ok prog.name (rest.length + 1) s1.temp ∧
    (startCommand builtin user now st pid (some p)).2.1.currentProgram
        = st.currentProgram ∧
    (startCommand builtin user now st pid (some p)).2.1.isRunning = true ∧
    (startCommand builtin user now st pid (some p)).2.1.tempTarget = s1.temp := by
  have hcond : ¬(p ≠ 0 ∧ ((builtin.lookup p).isSome ∨ (user.lookup p).isSome)) := by
    simp [hb, hu]
  unfold startCommand
  rw [if_neg (by simp [hrun]), if_neg (by simp [hem]), if_neg (by simp [hdoor])]
  simp only [hcond, if_neg, if_false, ite_false]
  simp only [hsel, hsteps]
  simp

/-- Witness for C10: starting with the unknown id 99 from the initial
state runs the previously selected built-in program 1. -/
theorem c10_unknown_program_start_witness :
    (startCommand builtinPrograms [] 5000 initialSystemState initialPIDState
        (some 99)).1 = .ok "IPS e.max CAD" 1 850 ∧
    (startCommand builtinPrograms [] 5000 initialSystemState initialPIDState
        (some 99)).2.1.currentProgram = 1 ∧
    (startCommand builtinPrograms [] 5000 initialSystemState initialPIDState
        (some 99)).2.1.isRunning = true ∧
    (startCommand builtinPrograms [] 5000 initialSystemState initialPIDState
        (some 99)).2.1.tempTarget = 850 :=
  c10_unknown_program_start builtinPrograms [] 5000 initialSystemState
    initialPIDState 99 ⟨"IPS e.max CAD", [⟨850, 25, -95, 5, 15⟩]⟩
    ⟨850, 25, -95, 5, 15⟩ [] rfl rfl rfl rfl rfl rfl rfl

/-- C8 (amended): the save command rejects with 400 — storing nothing —
exactly when the name is missing or empty or the steps field is not an
array; it never validates the steps themselves, so an empty step list (or
arbitrary step contents) is accepted, stored under id
`max(existing ids) + 1` and returned. -/
theorem c8_save_validation (builtin user : List (ℕ × Program))
    (name : Option String) (steps : Option (List Step)) :
    (∀ n stepList, name = some n → steps = some stepList → n ≠ "" →
      saveProgramCommand builtin user name steps
        = (.ok (maxProgramId builtin user + 1) ⟨n, stepList⟩,
           user ++ [(maxProgramId builtin user + 1, ⟨n, stepList⟩)])) ∧
    ((name = none ∨ name = some "" ∨ steps = none) →
      saveProgramCommand builtin user name steps
        = (.badRequest "Geçersiz program verisi", user)) := by
  constructor
  · intro n stepList h1 h2 h3
    subst h1
    subst h2
    simp only [saveProgramCommand]
    rw [if_neg h3]
  · intro h
    rcases h with h | h | h
    · subst h
      cases steps <;> rfl
    · subst h
      cases steps with
      | none => rfl
      | some l =>
        simp [saveProgramCommand]
    · subst h
      cases name <;> rfl

/-- Witness for C8's theorem: a well-formed save request is stored and
answered with the fresh id. -/
theorem c8_save_validation_witness :
    saveProgramCommand builtinPrograms [] (some "Demo") (some [⟨700, 10, 0, 2, 5⟩])
      = (.ok (maxProgramId builtinPrograms [] + 1) ⟨"Demo", [⟨700, 10, 0, 2, 5⟩]⟩,
         [] ++ [(maxProgramId builtinPrograms [] + 1, ⟨"Demo", [⟨700, 10, 0, 2, 5⟩]⟩)]) :=
  (c8_save_validation builtinPrograms [] (some "Demo") (some [⟨700, 10, 0, 2, 5⟩])).1
    "Demo" [⟨700, 10, 0, 2, 5⟩] rfl rfl (by decide)

/-- C8 (counterexample to the stated validation): a save request whose
steps list is *empty* is accepted — it is stored as user program 7 and
returned — refuting "accepts a request only when its steps list is
non-empty and each step is well-formed". -/
theorem c8_counterexample :
    saveProgramCommand builtinPrograms [] (some "Test") (some [])
      = (.ok 7 ⟨"Test", []⟩, [(7, ⟨"Test", []⟩)]) ∧
    (Program.mk "Test" []).steps.length = 0 := by
  constructor
  · decide
  · rfl
